import Mathlib

/-!
Verification of the tavily-tools response-transformation and quality-analysis
pipeline (repository silenceboychen/tavily-tools).

The Python sources are shallowly embedded here:

* `src/src/tavily_tools/core/formatter.py` — `TavilyFormatter.to_dict`,
  `TavilyFormatter.analyze_quality`, `TavilyFormatter.save_json` /
  `TavilyFormatter.save_html` filename handling;
* `src/src/tavily_tools/core/search.py` — `batch_search`,
  `SearchClient.get_search_history` / `export_history`;
* `src/src/tavily_tools/utils/helpers.py` — `clean_filename`;
* `src/tavily_formatter.py` — the legacy `_generate_html_content`.

Modelling conventions:

* Python machine floats are idealised as exact rationals `ℚ`; all score
  arithmetic in the sources (`float`, `max`, `min`, `sum`, `/`) is embedded
  over `ℚ`.  Decimal literals such as `0.7` are written `mkRat 7 10`.
* Dynamically typed Python values (the untrusted response mappings) are
  embedded as the inductive `PyVal`; a Python `dict` is an association list
  in insertion order (Python dicts preserve insertion order and have unique
  keys).
* Fallible operations return `Option`.
-/

/-- A dynamically typed Python value, as present in the untrusted search
response mappings.  `num` covers Python `int` and `float` (idealised as `ℚ`),
`dict` is an insertion-ordered association list with unique keys. -/
inductive PyVal : Type where
  | str (s : String)
  | num (q : ℚ)
  | none
  | list (l : List PyVal)
  | dict (d : List (String × PyVal))

/-- Python truthiness: `None`, `0`, `""`, `[]`, `{}` are falsy. -/
def PyVal.truthy : PyVal → Bool
  | .str s => s != ""
  | .num q => decide (q ≠ 0)
  | .none => false
  | .list l => !l.isEmpty
  | .dict d => !d.isEmpty

/-- Embedding of Python `mapping.get(key, default)`.  The sources only call
`.get` on mappings; on a non-mapping value Python would raise
`AttributeError`, a case none of the verified claims exercises, so the model
returns the default there. -/
def PyVal.get (v : PyVal) (key : String) (dflt : PyVal) : PyVal :=
  match v with
  | .dict d =>
    match d.find? (fun p => p.1 = key) with
    | some p => p.2
    | Option.none => dflt
  | _ => dflt

/-- Characters accepted as decimal digits by the float parser. -/
def isDigitChar (c : Char) : Bool := '0' ≤ c ∧ c ≤ '9'

/-- Digits of a character list, read as a natural number (accumulator form). -/
def digitsToNat : List Char → ℕ → ℕ
  | [], acc => acc
  | c :: rest, acc => digitsToNat rest (acc * 10 + (c.toNat - '0'.toNat))

/-- Value of a digit list read after the decimal point. -/
def fracOfDigits (ds : List Char) : ℚ := mkRat (digitsToNat ds 0) (10 ^ ds.length)

/-- Embedding of Python `float(str)` on the decimal fragment: optional
surrounding whitespace, optional sign, a decimal mantissa with at least one
digit, optional exponent.  (Python additionally accepts `inf`/`nan` spellings
and underscore separators; no verified claim exercises those, and the only
string the claims feed in, `"abc"`, fails to parse in both.) -/
def parseFloat? (s : String) : Option ℚ :=
  let chars := s.data.dropWhile (fun c => c = ' ' || c = '\t' || c = '\n' || c = '\r')
  let chars := (chars.reverse.dropWhile (fun c => c = ' ' || c = '\t' || c = '\n' || c = '\r')).reverse
  let (sign, chars) :=
    match chars with
    | '-' :: rest => ((-1 : ℚ), rest)
    | '+' :: rest => ((1 : ℚ), rest)
    | rest => ((1 : ℚ), rest)
  let intPart := chars.takeWhile isDigitChar
  let rest := chars.dropWhile isDigitChar
  let (fracPart, rest) :=
    match rest with
    | '.' :: r => (r.takeWhile isDigitChar, r.dropWhile isDigitChar)
    | r => ([], r)
  if intPart = [] ∧ fracPart = [] then Option.none
  else
    let mantissa : ℚ := (digitsToNat intPart 0 : ℚ) + fracOfDigits fracPart
    match rest with
    | [] => some (sign * mantissa)
    | 'e' :: r | 'E' :: r =>
      let (eneg, r) :=
        match r with
        | '-' :: r2 => (true, r2)
        | '+' :: r2 => (false, r2)
        | r2 => (false, r2)
      let edigits := r.takeWhile isDigitChar
      let r2 := r.dropWhile isDigitChar
      if edigits = [] ∨ r2 ≠ [] then Option.none
      else
        let e := digitsToNat edigits 0
        let scale : ℚ := if eneg then mkRat 1 (10 ^ e) else ((10 ^ e : ℕ) : ℚ)
        some (sign * mantissa * scale)
    | _ => Option.none

/-- Embedding of Python `float(score)` as used in `analyze_quality`
(`formatter.py:512`): numbers convert directly, strings are parsed, anything
else (sequences and mappings raise `TypeError`; `None` is handled before the
call) fails. -/
def pyFloat? : PyVal → Option ℚ
  | .num q => some q
  | .str s => parseFloat? s
  | _ => Option.none

/-- Embedding of the per-result score coercion of
`TavilyFormatter.analyze_quality` (`formatter.py:510-518`), applied to the
value of `result.get("score", 0)` (the `.get` default is supplied at the
call sites as `.getD (.num 0)`):

```python
try:
    score = float(score) if score is not None else 0.0
    score = max(0.0, min(1.0, score))
except (ValueError, TypeError):
    score = 0.0
```
-/
def normalize_score (v : PyVal) : ℚ :=
  match v with
  | .none => max 0 (min 1 (0 : ℚ))
  | v =>
    match pyFloat? v with
    | some q => max 0 (min 1 q)
    | Option.none => 0

/-- One entry of the `results` list of a search response, at the typing level
the formatter relies on: each field may be absent (`Option.none` models a
missing key — distinct from a key mapped to Python `None`, which is
`some PyVal.none`), and the score value is an arbitrary dynamic value. -/
structure SearchResult where
  title : Option String
  url : Option String
  content : Option String
  score : Option PyVal

/-- A search response as consumed by the formatter: `query`/`answer` may be
absent, `response_time` is numeric or absent (spec §3), `results` and
`follow_up_questions` default to the empty sequence when absent (Python
`.get(..., [])`; an absent optional block and an empty one are
indistinguishable downstream because `[]` is falsy). -/
structure Response where
  query : Option String
  response_time : Option ℚ
  answer : Option String
  results : List SearchResult
  follow_up_questions : List String

/-- The quality report returned by `TavilyFormatter.analyze_quality`
(`formatter.py:528-537`); field names translate the Chinese keys: `total` =
结果总数, `avg` = 平均评分, `high`/`medium`/`low` = the 评分分布 buckets,
`response_time` = 响应时间 (`Option.none` models the `"N/A"` sentinel). -/
structure QualityReport where
  total : ℕ
  avg : ℚ
  high : ℕ
  medium : ℕ
  low : ℕ
  response_time : Option ℚ
  deriving DecidableEq

/-- Embedding of `TavilyFormatter.analyze_quality` (`formatter.py:487-537`)
for a loaded response: the empty-results special case returns the zero
report; otherwise every score is coerced by `normalize_score`, the average is
the plain arithmetic mean, and the three buckets count scores `> 0.7`,
`0.4 ≤ s ≤ 0.7` and `< 0.4` (the decimal thresholds `0.7`, `0.4` are the
rationals `mkRat 7 10`, `mkRat 4 10`). -/
def analyze_quality (r : Response) : QualityReport :=
  if r.results.isEmpty then
    { total := 0, avg := 0, high := 0, medium := 0, low := 0
      response_time := r.response_time }
  else
    let scores := r.results.map (fun res => normalize_score (res.score.getD (.num 0)))
    { total := r.results.length
      avg := scores.sum / scores.length
      high := scores.countP (fun s => mkRat 7 10 < s)
      medium := scores.countP (fun s => mkRat 4 10 ≤ s ∧ s ≤ mkRat 7 10)
      low := scores.countP (fun s => s < mkRat 4 10)
      response_time := r.response_time }

/-- The `results` value of a response mapping, as read by
`TavilyFormatter.to_dict` (`formatter.py:141/148`): `.get("results", [])`,
then iterated.  The code iterates whatever sequence it finds; the model
restricts to the list case (iterating a non-sequence raises in Python, a
case no verified claim exercises). -/
def PyVal.resultsOf (response : PyVal) : List PyVal :=
  match response.get "results" (.list []) with
  | .list l => l
  | _ => []

/-- Embedding of `TavilyFormatter.to_dict` (`formatter.py:127-159`) over
dynamic values.  Returns `Option.none` when no (truthy) response is loaded
(`if not self.response: return None`); otherwise builds the structured
document with its localized key names, enumerating results from 1. -/
def to_dict (response : PyVal) : Option PyVal :=
  if ¬ response.truthy then Option.none
  else
    some (.dict
      [ ("搜索信息", .dict
          [ ("查询", response.get "query" .none)
          , ("响应时间", response.get "response_time" .none)
          , ("结果数量", .num (response.resultsOf.length : ℚ)) ])
      , ("AI答案", response.get "answer" .none)
      , ("搜索结果", .list ((response.resultsOf.enumFrom 1).map (fun p =>
          .dict
            [ ("序号", .num (p.1 : ℚ))
            , ("标题", p.2.get "title" .none)
            , ("链接", p.2.get "url" .none)
            , ("评分", p.2.get "score" .none)
            , ("内容摘要", p.2.get "content" .none) ])))
      , ("跟进问题", response.get "follow_up_questions" (.list [])) ])

/-- A fully normalized result in the sense of spec §3 `NormalizedResult`:
all text fields present, score an exact number.  On such data the dynamic
`to_dict` degenerates to the typed `to_structured` below. -/
structure NormalizedResult where
  title : String
  url : String
  content : String
  score : ℚ

/-- A fully normalized record in the sense of spec §3 `NormalizedRecord`.
`response_time = Option.none` models the `"N/A"` sentinel. -/
structure NormalizedRecord where
  query : String
  response_time : Option ℚ
  answer : Option String
  results : List NormalizedResult
  follow_up_questions : List String

/-- One entry of the structured document built by `to_dict`; field names
translate the Chinese keys (`rank` = 序号, `title` = 标题, `url` = 链接,
`score` = 评分, `content` = 内容摘要). -/
structure StructuredResult where
  rank : ℕ
  title : String
  url : String
  score : ℚ
  content : String

/-- The structured document built by `to_dict`; field names translate the
Chinese keys (`query` = 查询, `response_time` = 响应时间, `result_count` =
结果数量, `answer` = AI答案, `results` = 搜索结果, `follow_up_questions` =
跟进问题). -/
structure StructuredDoc where
  query : String
  response_time : Option ℚ
  result_count : ℕ
  answer : Option String
  results : List StructuredResult
  follow_up_questions : List String

/-- Embedding of `TavilyFormatter.to_dict` (`formatter.py:127-159`)
restricted to fully normalized records: the same field routing as `to_dict`,
with ranks assigned by `enumerate(results, 1)`. -/
def to_structured (r : NormalizedRecord) : StructuredDoc :=
  { query := r.query
    response_time := r.response_time
    result_count := r.results.length
    answer := r.answer
    results := (r.results.enumFrom 1).map (fun p =>
      { rank := p.1, title := p.2.title, url := p.2.url
        score := p.2.score, content := p.2.content })
    follow_up_questions := r.follow_up_questions }

/-- Injection of a normalized record into the dynamic value world, for
relating `to_structured` with the dynamic `to_dict`.  The `"N/A"` sentinel
stands for an absent response time and `None` for an absent answer, exactly
the values the upstream `.get` defaults produce. -/
def NormalizedRecord.toPyVal (r : NormalizedRecord) : PyVal :=
  .dict
    [ ("query", .str r.query)
    , ("response_time", match r.response_time with
        | some q => .num q
        | Option.none => .str "N/A")
    , ("answer", match r.answer with
        | some a => .str a
        | Option.none => .none)
    , ("results", .list (r.results.map (fun res => .dict
        [ ("title", .str res.title)
        , ("url", .str res.url)
        , ("content", .str res.content)
        , ("score", .num res.score) ])))
    , ("follow_up_questions", .list (r.follow_up_questions.map .str)) ]

/-- Whitespace characters for the slug cleaner (`re` class `\s`, restricted
to the characters that can still occur at that pipeline stage). -/
def isSpaceChar (c : Char) : Bool :=
  c = ' ' || c = '\t' || c = '\n' || c = '\r' || c = '\x0b' || c = '\x0c'

/-- The character class `[<>:"/\\|?*]` replaced by `_` in `clean_filename`
(`helpers.py:61`). -/
def isUnsafeChar (c : Char) : Bool :=
  c = '<' || c = '>' || c = ':' || c = '"' || c = '/' || c = '\\' ||
  c = '|' || c = '?' || c = '*'

/-- The character class `[\w\-_. ]` kept by `clean_filename`
(`helpers.py:62`).  Python `\w` is Unicode; the model keeps the ASCII
fragment `[A-Za-z0-9_]`, which is exact on the ASCII inputs the claims
exercise (non-ASCII word characters are additionally kept by the code). -/
def isKeptChar (c : Char) : Bool :=
  c.isAlphanum || c = '_' || c = '-' || c = '.' || c = ' '

/-- Worker for `collapseSpaces`: the flag records whether the previous
character belonged to a whitespace run already rendered as `_`. -/
def collapseSpacesAux : Bool → List Char → List Char
  | _, [] => []
  | inRun, c :: rest =>
    if isSpaceChar c then
      if inRun then collapseSpacesAux true rest
      else '_' :: collapseSpacesAux true rest
    else c :: collapseSpacesAux false rest

/-- Collapse every maximal run of whitespace into a single `_`
(`re.sub(r"\s+", "_", ...)`, `helpers.py:63`). -/
def collapseSpaces (l : List Char) : List Char := collapseSpacesAux false l

/-- Worker for `collapseUnderscores`: the flag records whether the previous
character belonged to a `_` run already rendered as `_`. -/
def collapseUnderscoresAux : Bool → List Char → List Char
  | _, [] => []
  | inRun, c :: rest =>
    if c = '_' then
      if inRun then collapseUnderscoresAux true rest
      else '_' :: collapseUnderscoresAux true rest
    else c :: collapseUnderscoresAux false rest

/-- Collapse every maximal run of `_` into a single `_`
(`re.sub(r"_+", "_", ...)`, `helpers.py:66`). -/
def collapseUnderscores (l : List Char) : List Char := collapseUnderscoresAux false l

/-- Embedding of `clean_filename` (`helpers.py:46-76`): empty input falls
back to `"unnamed"`; unsafe characters are replaced by `_`; characters
outside `[\w\-_. ]` are removed; the ends are stripped of whitespace and
inner whitespace runs collapse to `_`; `_` runs collapse; the result is
truncated to `max_length` (then stripped of trailing `_`); an empty result
falls back to `"unnamed"`. -/
def clean_filename (filename : String) (max_length : ℕ := 50) : String :=
  if filename = "" then "unnamed"
  else
    let cleaned := filename.data.map (fun c => if isUnsafeChar c then '_' else c)
    let cleaned := cleaned.filter isKeptChar
    let stripped := (cleaned.dropWhile isSpaceChar).reverse.dropWhile isSpaceChar |>.reverse
    let cleaned := collapseSpaces stripped
    let cleaned := collapseUnderscores cleaned
    let cleaned :=
      if max_length < cleaned.length then
        (cleaned.take max_length).reverse.dropWhile (fun d => d = '_') |>.reverse
      else cleaned
    if cleaned = [] then "unnamed" else ⟨cleaned⟩

/-- Split a character list at `/` separators. -/
def splitSlash : List Char → List (List Char)
  | [] => [[]]
  | c :: rest =>
    match splitSlash rest with
    | [] => [[c]]
    | comp :: comps => if c = '/' then [] :: comp :: comps else (c :: comp) :: comps

/-- Embedding of `pathlib.PurePath(filename).name` on POSIX paths: the last
path component, where empty components and `.` components are dropped during
parsing (`..` components are kept); `""` when no component remains. -/
def path_name (filename : String) : String :=
  match ((splitSlash filename.data).filter (fun comp => comp ≠ [] ∧ comp ≠ ['.'])).getLast? with
  | some comp => ⟨comp⟩
  | Option.none => ""

/-- The path a `TavilyFormatter.save_json` / `save_html` write targets
(`formatter.py:180-182` and `220-221`):

```python
filename = Path(filename).name
filepath = Path(self.save_path) / filename
```

modelled for a save directory given without a trailing slash. -/
def save_target (save_path filename : String) : String :=
  save_path ++ "/" ++ path_name filename

/-- A path strictly inside the directory `dir`: `dir`, a separator, and a
single non-empty leaf component that is neither `.` nor `..`. -/
def strictlyInside (dir p : String) : Prop :=
  ∃ leaf : String, p = dir ++ "/" ++ leaf ∧ leaf ≠ "" ∧ leaf ≠ "." ∧
    leaf ≠ ".." ∧ '/' ∉ leaf.data

/-- Embedding of the `batch_search` loop (`search.py:243-268`): per topic,
in input order, run the search collaborator; a success appends its formatter
to the returned list, an exception is caught, reported (`print` at line 267,
counted by the second component) and iteration continues.  The function
returns the pair (collected formatters, number of reported failures); the
source returns the formatter list. -/
def batch_search {ε α : Type} (search_fn : String → Except ε α)
    (topics : List String) : List α × ℕ :=
  topics.foldl
    (fun acc topic =>
      match search_fn topic with
      | .ok f => (acc.1 ++ [f], acc.2)
      | .error _ => (acc.1, acc.2 + 1))
    ([], 0)

/-- One entry of the session ledger (`search.py:60-67`): query text,
capture timestamp, result count and response time. -/
structure HistoryEntry where
  query : String
  timestamp : String
  results_count : ℕ
  response_time : Option ℚ
  deriving DecidableEq

/-- The mutable-state model for `SearchClient`: Python list objects live in
a heap addressed by allocation order, and the client holds a reference
`hist_ref` to its `search_history` list.  This makes aliasing observable:
`search_history.copy()` allocates a fresh address. -/
structure LedgerState where
  heap : List (List HistoryEntry)
  hist_ref : ℕ

/-- Read the list object at address `a`. -/
def LedgerState.read (s : LedgerState) (a : ℕ) : List HistoryEntry :=
  s.heap.getD a []

/-- Embedding of `SearchClient.get_search_history` (`search.py:100-107`):
`return self.search_history.copy()` — allocates a fresh list object with the
same contents and returns (a reference to) it. -/
def get_search_history (s : LedgerState) : ℕ × LedgerState :=
  (s.heap.length, { s with heap := s.heap ++ [s.read s.hist_ref] })

/-- An arbitrary in-place mutation (append, remove, clear, ...) performed by
the caller on the list object at address `a`. -/
def mutate_list (s : LedgerState) (a : ℕ) (f : List HistoryEntry → List HistoryEntry) :
    LedgerState :=
  { s with heap := s.heap.set a (f (s.read a)) }

/-- Embedding of `SearchClient.export_history` (`search.py:114-141`) at the
data level: an empty ledger is reported and nothing is exported
(`Option.none`), otherwise the serialized ledger contents. -/
def export_history (s : LedgerState) : Option (List HistoryEntry) :=
  if s.read s.hist_ref = [] then Option.none else some (s.read s.hist_ref)

/-- Per-character form of Python `html.escape(s, quote=True)`
(`html/__init__.py`): `&`, `<`, `>`, `"` and the single quote map to their
entities, every other character is kept.  (The CPython implementation
replaces `&` first and the other four afterwards, which is equivalent to
this single pass.) -/
def escChar (c : Char) : List Char :=
  if c = '&' then "&amp;".data
  else if c = '<' then "&lt;".data
  else if c = '>' then "&gt;".data
  else if c = '"' then "&quot;".data
  else if c = '\x27' then "&#x27;".data
  else [c]

/-- Embedding of Python `html.escape` with `quote=True`, as called by both
HTML renderers. -/
def html_escape (s : String) : String := ⟨s.data.flatMap escChar⟩

/-- Decimal digits of `n`, most significant first (fuel-indexed worker). -/
def natDigitsAux : ℕ → ℕ → List Char
  | 0, _ => []
  | _ + 1, 0 => []
  | fuel + 1, n => natDigitsAux fuel (n / 10) ++ [Char.ofNat ('0'.toNat + n % 10)]

/-- Decimal rendering of a natural number, as Python `str` renders `int`. -/
def natDigits (n : ℕ) : List Char :=
  if n = 0 then ['0'] else natDigitsAux (n + 1) n

/-- Zero-padded three-digit rendering of `n < 1000`. -/
def pad3 (n : ℕ) : List Char :=
  let s := natDigits n
  List.replicate (3 - s.length) '0' ++ s

/-- Embedding of Python `f"{x:.3f}"` for an exact rational: the value is
rounded to an integer number of thousandths and rendered with exactly three
decimals.  (Python rounds the underlying double half-to-even; the model
rounds half away from zero, which agrees on every value the claims use.) -/
def fixed3 (q : ℚ) : String :=
  let n : ℤ :=
    if q.num < 0 then -((-2000 * q.num + q.den) / (2 * q.den))
    else (2000 * q.num + q.den) / (2 * q.den)
  ⟨(if n < 0 then ['-'] else []) ++ natDigits (n.natAbs / 1000) ++ '.' :: pad3 (n.natAbs % 1000)⟩

/-- Embedding of the f-string conversion `{value:.3f}` applied to a dynamic
value: numbers format, everything else raises (`ValueError`/`TypeError`),
which the model reports as `Option.none`. -/
def pyFixed3 : PyVal → Option String
  | .num q => some (fixed3 q)
  | _ => Option.none

/-- Fractional decimal digits of `r / den` (fuel-bounded; stops at a zero
remainder). -/
def fracDigitsAux : ℕ → ℕ → ℕ → List Char
  | 0, _, _ => []
  | _ + 1, 0, _ => []
  | fuel + 1, r, den =>
    Char.ofNat ('0'.toNat + r * 10 / den) :: fracDigitsAux fuel (r * 10 % den) den

/-- Decimal rendering of an exact rational, standing in for Python
`str(float)`: integer part, a point, and the fractional digits (at least one;
at most 17, the length at which `repr(float)` is already exact). -/
def pyFloatRepr (q : ℚ) : String :=
  let whole := q.num.natAbs / q.den
  let rem := q.num.natAbs % q.den
  let fracs := fracDigitsAux 17 rem q.den
  ⟨(if q.num < 0 then ['-'] else []) ++ natDigits whole ++
    '.' :: (if fracs = [] then ['0'] else fracs)⟩

/-- The interpolation of a response time into a report: a number renders as
Python prints it, the absent value renders as the `"N/A"` default. -/
def response_time_text : Option ℚ → String
  | some q => pyFloatRepr q
  | Option.none => "N/A"

/-- The per-result block of the legacy renderer
(`src/tavily_formatter.py:231-240`): rank, escaped title, the raw
(unescaped) url twice, formatted score, escaped content.  `Option.none`
models the exception raised by `{score:.3f}` on a non-numeric score. -/
def legacy_result_html (i : ℕ) (res : SearchResult) : Option String :=
  match pyFixed3 (res.score.getD (.num 0)) with
  | Option.none => Option.none
  | some score3 => some
      ("\n            <div class=\"result\">\n                <h3>" ++
        ⟨natDigits i⟩ ++ ". " ++ html_escape (res.title.getD "无标题") ++
        "</h3>\n                <p><strong>链接:</strong> <a href=\"" ++
        res.url.getD "#" ++ "\" target=\"_blank\">" ++ res.url.getD "N/A" ++
        "</a></p>\n                <p><strong>评分:</strong> " ++ score3 ++
        "</p>\n                <p><strong>内容:</strong> " ++
        html_escape (res.content.getD "") ++
        "</p>\n            </div>\n            ")

/-- The `results_html` accumulation loop of the legacy renderer
(`src/tavily_formatter.py:230-240`), enumerating from 1. -/
def legacy_results_html : ℕ → List SearchResult → Option String
  | _, [] => some ""
  | i, res :: rest =>
    match legacy_result_html i res, legacy_results_html (i + 1) rest with
    | some h, some t => some (h ++ t)
    | _, _ => Option.none

/-- The `answer_html` block of the legacy renderer
(`src/tavily_formatter.py:242-249`): emitted only for a truthy answer, with
the answer text escaped. -/
def legacy_answer_html (answer : Option String) : String :=
  match answer with
  | some a =>
    if a = "" then ""
    else
      "\n            <div class=\"answer\">\n                <h2>💡 AI答案</h2>\n                <p>" ++
        html_escape a ++ "</p>\n            </div>\n            "
  | Option.none => ""

/-- The `questions_html` block of the legacy renderer
(`src/tavily_formatter.py:251-262`): emitted only for a non-empty question
list, each question escaped. -/
def legacy_questions_html (qs : List String) : String :=
  if qs.isEmpty then ""
  else
    "\n            <div class=\"questions\">\n                <h2>❓ 相关问题</h2>\n                <ul>" ++
      String.join (qs.map (fun q => "<li>" ++ html_escape q ++ "</li>")) ++
      "</ul>\n            </div>\n            "

/-- Embedding of the legacy `TavilyFormatter._generate_html_content`
(`src/tavily_formatter.py:228-312`).  The braces that Python spells `\x7b\x7b`
inside the f-string are written `\x7b`/`\x7d`, interpolations become string
concatenation, and `gen_time` stands for the `datetime.now()` timestamp.
`Option.none` models a propagated formatting exception. -/
def legacy_generate_html_content (r : Response) (title gen_time : String) :
    Option String :=
  match legacy_results_html 1 r.results with
  | Option.none => Option.none
  | some results_html => some
      ("\n        <!DOCTYPE html>\n        <html lang=\"zh-CN\">\n        <head>\n" ++
        "            <meta charset=\"UTF-8\">\n" ++
        "            <meta name=\"viewport\" content=\"width=device-width, initial-scale=1.0\">\n" ++
        "            <title>" ++ html_escape title ++ "</title>\n" ++
        "            <style>\n" ++
        "                body \x7b font-family: -apple-system, BlinkMacSystemFont, \x27Segoe UI\x27, Roboto, sans-serif; \n" ++
        "                       line-height: 1.6; margin: 40px; background-color: #f5f5f5; \x7d\n" ++
        "                .container \x7b max-width: 1000px; margin: 0 auto; background: white; \n" ++
        "                             padding: 30px; border-radius: 10px; box-shadow: 0 2px 10px rgba(0,0,0,0.1); \x7d\n" ++
        "                h1 \x7b color: #333; border-bottom: 3px solid #007acc; padding-bottom: 10px; \x7d\n" ++
        "                .summary \x7b background: #e8f4f8; padding: 20px; border-radius: 8px; margin: 20px 0; \x7d\n" ++
        "                .summary p \x7b margin: 5px 0; \x7d\n" ++
        "                .result \x7b border: 1px solid #ddd; padding: 20px; margin: 15px 0; \n" ++
        "                          border-radius: 8px; background: #fafafa; \x7d\n" ++
        "                .result h3 \x7b color: #007acc; margin-top: 0; \x7d\n" ++
        "                .answer \x7b background: #e8f5e8; padding: 20px; border-radius: 8px; margin: 20px 0; \x7d\n" ++
        "                .questions \x7b background: #fff4e8; padding: 20px; border-radius: 8px; margin: 20px 0; \x7d\n" ++
        "                a \x7b color: #007acc; text-decoration: none; \x7d\n" ++
        "                a:hover \x7b text-decoration: underline; \x7d\n" ++
        "                .timestamp \x7b color: #666; font-size: 12px; text-align: right; margin-top: 30px; \x7d\n" ++
        "            </style>\n        </head>\n        <body>\n" ++
        "            <div class=\"container\">\n                <h1>" ++ html_escape title ++ "</h1>\n" ++
        "                \n                <div class=\"summary\">\n" ++
        "                    <p><strong>🔍 搜索查询:</strong> " ++ html_escape (r.query.getD "N/A") ++ "</p>\n" ++
        "                    <p><strong>⏱️ 响应时间:</strong> " ++ response_time_text r.response_time ++ " 秒</p>\n" ++
        "                    <p><strong>📊 结果数量:</strong> " ++ ⟨natDigits r.results.length⟩ ++ " 条</p>\n" ++
        "                </div>\n                \n                " ++ legacy_answer_html r.answer ++
        "\n                \n                <h2>📄 搜索结果</h2>\n                " ++ results_html ++
        "\n                \n                " ++ legacy_questions_html r.follow_up_questions ++
        "\n                \n                <div class=\"timestamp\">\n" ++
        "                    报告生成时间: " ++ gen_time ++
        "\n                </div>\n            </div>\n        </body>\n        </html>\n        ")

/-- The concrete failing input for the HTML-escaping claim: one result whose
`content` contains `<script>alert(1)</script>` — and whose `url` does too. -/
def xss_result : SearchResult :=
  { title := some "A"
    url := some "<script>alert(1)</script>"
    content := some "see <script>alert(1)</script>"
    score := some (.num (mkRat 1 2)) }

/-- The response holding `xss_result`. -/
def xss_response : Response :=
  { query := some "q"
    response_time := Option.none
    answer := Option.none
    results := [xss_result]
    follow_up_questions := [] }

/-- The document the legacy renderer produces for `xss_response`. -/
def legacy_xss_doc : String :=
  (legacy_generate_html_content xss_response "report" "2026-10-12 00:00:00").getD ""

/-- Executable substring check: `hasInfixB pat l` scans `l` for `pat`. -/
def hasInfixB (pat : List Char) : List Char → Bool
  | [] => pat.isEmpty
  | c :: rest => pat.isPrefixOf (c :: rest) || hasInfixB pat rest


/-- The raw response of the end-to-end scenario (spec §8): query `"x"`,
response time `1.2`, two results scored `0.9` and `0.3`. -/
def sample_response_x : Response :=
  { query := some "x"
    response_time := some (mkRat 6 5)
    answer := Option.none
    results :=
      [ { title := some "A", url := some "u1", content := some "c1"
          score := some (.num (mkRat 9 10)) }
      , { title := some "B", url := some "u2", content := some "c2"
          score := some (.num (mkRat 3 10)) } ]
    follow_up_questions := [] }

/-- A search collaborator for the batch-isolation scenario: the second query
raises a `SearchError`, the others succeed. -/
def failing_search_fn : String → Except String String :=
  fun topic => if topic = "q2" then .error "SearchError" else .ok ("result-" ++ topic)

/-- Whether a mapping value carries the given key. -/
def PyVal.hasKeyB (v : PyVal) (key : String) : Bool :=
  match v with
  | .dict d => d.any (fun p => p.1 == key)
  | _ => false

/-- Whether a dynamic value is Python `None`. -/
def PyVal.isNoneB : PyVal → Bool
  | .none => true
  | _ => false

/-- A concrete record that is already normalized in the sense of spec §3:
every field present and well-typed, the score inside `[0, 1]`. -/
def sample_norm_record : NormalizedRecord :=
  { query := "x"
    response_time := some (mkRat 6 5)
    answer := some "ans"
    results := [{ title := "A", url := "u1", content := "c1", score := mkRat 9 10 }]
    follow_up_questions := ["f1"] }

/-- `sample_norm_record` as the dynamic mapping the formatter consumes. -/
def sample_norm_py : PyVal := sample_norm_record.toPyVal

/-- The structured document `to_dict` builds from `sample_norm_py`. -/
def structured_doc_x : PyVal := (to_dict sample_norm_py).getD .none

/-- A concrete ledger state: one history entry, the client holding the
reference allocated first. -/
def sample_ledger : LedgerState :=
  { heap := [[{ query := "q", timestamp := "2026-10-12T00:00:00"
                results_count := 1, response_time := some 1 }]]
    hist_ref := 0 }

/-- The slug after unsafe-character replacement, keep-class filtering,
stripping and both collapse passes of `clean_filename` (`helpers.py:61-66`).
Definitionally the intermediate value of `clean_filename` before
truncation. -/
def clean_collapsed (s : String) : List Char :=
  collapseUnderscores (collapseSpaces
    (((((s.data.map (fun c => if isUnsafeChar c then '_' else c)).filter
        isKeptChar).dropWhile isSpaceChar).reverse.dropWhile isSpaceChar).reverse))

/-- The slug after the bounded-length truncation of `clean_filename`
(`helpers.py:69-70`). -/
def clean_truncated (s : String) (max_length : ℕ) : List Char :=
  if max_length < (clean_collapsed s).length then
    (((clean_collapsed s).take max_length).reverse.dropWhile (fun d => d = '_')).reverse
  else clean_collapsed s

/-- The structured document injected back into the dynamic value world,
with the byte-exact key names `to_dict` writes (spec §6). -/
def StructuredDoc.toPyVal (d : StructuredDoc) : PyVal :=
  .dict
    [ ("搜索信息", .dict
        [ ("查询", .str d.query)
        , ("响应时间", match d.response_time with
            | some q => .num q
            | Option.none => .str "N/A")
        , ("结果数量", .num (d.result_count : ℚ)) ])
    , ("AI答案", match d.answer with
        | some a => .str a
        | Option.none => .none)
    , ("搜索结果", .list (d.results.map (fun res => PyVal.dict
        [ ("序号", .num (res.rank : ℚ))
        , ("标题", .str res.title)
        , ("链接", .str res.url)
        , ("评分", .num res.score)
        , ("内容摘要", .str res.content) ])))
    , ("跟进问题", .list (d.follow_up_questions.map .str)) ]

theorem hasInfixB_iff (pat l : List Char) : hasInfixB pat l = true ↔ pat <:+: l := by
  induction l with
  | nil => simp [hasInfixB, List.isEmpty_iff]
  | cons c rest ih => simp [hasInfixB, ih, List.infix_cons_iff]


theorem countP_three_partition {α : Type} (p q r : α → Bool) (l : List α)
    (h : ∀ x, (p x = true ∧ q x = false ∧ r x = false) ∨
      (p x = false ∧ q x = true ∧ r x = false) ∨
      (p x = false ∧ q x = false ∧ r x = true)) :
    l.countP p + l.countP q + l.countP r = l.length := by
  induction l with
  | nil => rfl
  | cons x xs ih =>
    simp only [List.countP_cons, List.length_cons]
    rcases h x with ⟨h1, h2, h3⟩ | ⟨h1, h2, h3⟩ | ⟨h1, h2, h3⟩ <;> simp [h1, h2, h3] <;> omega

theorem quality_buckets_cover (l : List ℚ) :
    l.countP (fun s => mkRat 7 10 < s)
      + l.countP (fun s => mkRat 4 10 ≤ s ∧ s ≤ mkRat 7 10)
      + l.countP (fun s => s < mkRat 4 10) = l.length := by
  have h47 : (mkRat 4 10 : ℚ) ≤ mkRat 7 10 := by norm_num [Rat.mkRat_eq_div]
  apply countP_three_partition
  intro x
  rcases lt_or_le x (mkRat 4 10) with h1 | h1
  · exact Or.inr (Or.inr ⟨decide_eq_false (fun hc => absurd (h47.trans_lt hc) (not_lt.2 h1.le)),
      decide_eq_false (fun hc => absurd hc.1 (not_le.2 h1)), decide_eq_true h1⟩)
  · rcases le_or_lt x (mkRat 7 10) with h2 | h2
    · exact Or.inr (Or.inl ⟨decide_eq_false (not_lt.2 h2), decide_eq_true ⟨h1, h2⟩,
        decide_eq_false (not_lt.2 h1)⟩)
    · exact Or.inl ⟨decide_eq_true h2, decide_eq_false (fun hc => absurd h2 (not_lt.2 hc.2)),
        decide_eq_false (not_lt.2 (h47.trans h2.le))⟩

/-- C1: for every response record, the quality report of `analyze_quality`
has its three distribution buckets (`score > 0.7`, `0.4 ≤ score ≤ 0.7`,
`score < 0.4`, counted over the clamped scores) mutually exclusive and
exhaustive, so `high + medium + low` equals `result_count`. -/
theorem C1_distribution_partition (r : Response) :
    (analyze_quality r).high + (analyze_quality r).medium + (analyze_quality r).low
      = (analyze_quality r).total := by
  by_cases h : r.results.isEmpty
  · simp [analyze_quality, h]
  · have hg := quality_buckets_cover
      (r.results.map (fun res => normalize_score (res.score.getD (.num 0))))
    rw [List.length_map] at hg
    simp only [analyze_quality]
    rw [if_neg h]
    exact hg

/-- C2: score normalization maps the malformed and out-of-range raw scores
`-5`, `"abc"`, `None`, `1.5`, `0.65` to `0.0, 0.0, 0.0, 1.0, 0.65`
respectively — parse failure or `None` falls back to `0.0`, successfully
parsed numbers are clamped into `[0.0, 1.0]`. -/
theorem C2_score_clamping :
    normalize_score (.num (-5)) = 0 ∧ normalize_score (.str "abc") = 0 ∧
    normalize_score .none = 0 ∧ normalize_score (.num (3/2)) = 1 ∧
    normalize_score (.num (13/20)) = 13/20 := by
  refine ⟨by decide, by decide, by decide, ?_, ?_⟩
  · rw [show normalize_score (.num (3/2)) = max 0 (min 1 ((3 : ℚ)/2)) from rfl]
    norm_num
  · rw [show normalize_score (.num (13/20)) = max 0 (min 1 ((13 : ℚ)/20)) from rfl]
    norm_num

/-- C7: the end-to-end scenario — query `"x"`, response time `1.2`, results
scored `0.9` and `0.3` — yields `result_count = 2`, `average_score = 0.6`
(the exact unrounded arithmetic mean `mkRat 3 5`; the IEEE evaluation
`(0.9 + 0.3) / 2` also equals `0.6` exactly at double precision) and
distribution `high = 1, medium = 0, low = 1`. -/
theorem C7_end_to_end :
    analyze_quality sample_response_x =
      { total := 2, avg := mkRat 3 5, high := 1, medium := 0, low := 1
        response_time := some (mkRat 6 5) } := by
  have h1 : analyze_quality sample_response_x =
      { total := 2, avg := (mkRat 9 10 + (mkRat 3 10 + 0)) / ((2 : ℕ) : ℚ)
        high := 1, medium := 0, low := 1
        response_time := some (mkRat 6 5) } := rfl
  rw [h1]
  have h2 : (mkRat 9 10 + (mkRat 3 10 + 0)) / ((2 : ℕ) : ℚ) = mkRat 3 5 := by
    norm_num [Rat.mkRat_eq_div]
  rw [h2]

theorem batch_search_foldl {ε α : Type} (f : String → Except ε α) :
    ∀ (topics : List String) (acc : List α) (n : ℕ),
      topics.foldl
        (fun acc topic =>
          match f topic with
          | .ok fo => (acc.1 ++ [fo], acc.2)
          | .error _ => (acc.1, acc.2 + 1))
        (acc, n)
      = (acc ++ topics.filterMap (fun t => (f t).toOption),
         n + topics.countP (fun t => match f t with | .ok _ => false | .error _ => true))
  | [], acc, n => by simp
  | t :: ts, acc, n => by
    simp only [List.foldl_cons, List.filterMap_cons, List.countP_cons]
    cases hf : f t with
    | ok v =>
      rw [batch_search_foldl f ts (acc ++ [v]) n]
      simp [hf, Except.toOption]
    | error e =>
      rw [batch_search_foldl f ts acc (n + 1)]
      simp [hf, Except.toOption]
      omega

/-- C5: batch isolation — for every search collaborator and topic sequence,
the batch loop returns exactly the results of the topics whose search
succeeded, in input order, counting one reported failure per raised
exception and never raising itself; in particular for three queries whose
second raises a `SearchError`, it returns the two successful results and
reports one failure. -/
theorem C5_batch_isolation :
    (∀ (ε α : Type) (search_fn : String → Except ε α) (topics : List String),
      batch_search search_fn topics
        = (topics.filterMap (fun t => (search_fn t).toOption),
           topics.countP
             (fun t => match search_fn t with | .ok _ => false | .error _ => true))) ∧
    batch_search failing_search_fn ["q1", "q2", "q3"] = (["result-q1", "result-q3"], 1) := by
  constructor
  · intro ε α f topics
    have h := batch_search_foldl f topics [] 0
    simpa [batch_search] using h
  · decide

theorem splitSlash_ne_nil (l : List Char) : splitSlash l ≠ [] := by
  cases l with
  | nil => simp [splitSlash]
  | cons c rest =>
    simp only [splitSlash]
    cases splitSlash rest with
    | nil => simp
    | cons comp comps =>
      by_cases h : c = '/' <;> simp [h]

theorem splitSlash_no_slash (l : List Char) :
    ∀ comp ∈ splitSlash l, '/' ∉ comp := by
  induction l with
  | nil =>
    intro comp hc
    simp [splitSlash] at hc
    simp [hc]
  | cons c rest ih =>
    intro comp hc
    rcases hs : splitSlash rest with _ | ⟨h0, t0⟩
    · exact absurd hs (splitSlash_ne_nil rest)
    · rw [splitSlash, hs] at hc
      by_cases hslash : c = '/'
      · simp only [hslash, if_true, List.mem_cons] at hc
        rcases hc with rfl | hc
        · simp
        · exact ih comp (hs ▸ List.mem_cons.2 hc)
      · simp only [if_neg hslash, List.mem_cons] at hc
        rcases hc with rfl | hc
        · intro hmem
          rcases List.mem_cons.1 hmem with h1 | h1
          · exact hslash h1.symm
          · exact ih h0 (hs ▸ List.mem_cons_self h0 t0) h1
        · exact ih comp (hs ▸ List.mem_cons_of_mem h0 hc)

theorem path_name_no_slash (filename : String) : '/' ∉ (path_name filename).data := by
  unfold path_name
  rcases hg : ((splitSlash filename.data).filter
      (fun comp => comp ≠ [] ∧ comp ≠ ['.'])).getLast? with _ | comp
  · simp
  · simp only []
    have hmem := List.mem_of_getLast?_eq_some hg
    have hmem2 := List.mem_of_mem_filter hmem
    exact splitSlash_no_slash filename.data comp hmem2

/-- C4: the artifact writer joins only the final path segment of a
caller-supplied filename to the configured save directory — the used path is
`save_path / (path leaf)`, the leaf never contains a separator, and the
request for `"../../etc/passwd"` writes to `save_path/passwd`, strictly
inside the configured directory. -/
theorem C4_filename_containment (save_path filename : String) :
    save_target save_path filename = save_path ++ "/" ++ path_name filename ∧
    '/' ∉ (path_name filename).data ∧
    path_name "../../etc/passwd" = "passwd" ∧
    strictlyInside save_path (save_target save_path "../../etc/passwd") := by
  refine ⟨rfl, path_name_no_slash filename, by decide, ?_⟩
  exact ⟨"passwd", rfl, by decide, by decide, by decide, by decide⟩

/-- C6: the structured document built by `to_structured` from a normalized
record, when read back, preserves the result count, the per-result ranks —
the contiguous 1-based positions `1..N` — and the per-result scores exactly.
(The persisted JSON serialization of the document is treated as the
identity: spec §6 fixes its key strings and nesting, and JSON round-trips
strings and numbers exactly.) -/
theorem C6_round_trip (r : NormalizedRecord) :
    (to_structured r).result_count = r.results.length ∧
    (to_structured r).results.map (fun res => res.rank)
      = List.range' 1 r.results.length ∧
    (to_structured r).results.map (fun res => res.score)
      = r.results.map (fun res => res.score) := by
  refine ⟨rfl, ?_, ?_⟩
  · simp only [to_structured, List.map_map]
    show List.map Prod.fst (r.results.enumFrom 1) = List.range' 1 r.results.length
    exact List.enumFrom_map_fst 1 r.results
  · simp only [to_structured, List.map_map]
    show List.map ((fun res : NormalizedResult => res.score) ∘ Prod.snd)
      (r.results.enumFrom 1) = r.results.map (fun res => res.score)
    rw [← List.map_map, List.enumFrom_map_snd]

set_option maxRecDepth 16384 in
set_option maxHeartbeats 1600000 in
/-- C3, evaluated at a failing input: for the response whose single result
has `content` containing `<script>alert(1)</script>` (and a `url` that also
contains it), the legacy renderer `_generate_html_content`
(`src/tavily_formatter.py:236`) interpolates the result `url` without
`html.escape`, so although the escaped form of the content does appear, the
produced document also contains a literal unescaped `<script>` substring —
against the claim that every record-derived value (title, url, content,
answer, follow-up questions, report title) is escaped and that no literal
`<script>` survives. -/
theorem C3_legacy_unescaped_url :
    "<script>alert(1)</script>".data <:+: (xss_result.content.getD "").data ∧
    (html_escape "<script>alert(1)</script>").data <:+: legacy_xss_doc.data ∧
    "<script>".data <:+: legacy_xss_doc.data := by
  refine ⟨?_, ?_, ?_⟩ <;> rw [← hasInfixB_iff] <;> decide

/-- C8 counterexample: the slug of the query text is not lowercased —
`clean_filename "ABC"` keeps `"ABC"` and does not return `"abc"`. -/
theorem C8_not_lowercased : clean_filename "ABC" = "ABC" ∧ clean_filename "ABC" ≠ "abc" :=
  ⟨by decide, by decide⟩

theorem collapseSpacesAux_chars (b : Bool) (l : List Char) :
    ∀ c ∈ collapseSpacesAux b l, c = '_' ∨ (c ∈ l ∧ isSpaceChar c = false) := by
  induction l generalizing b with
  | nil => intro c hc; simp [collapseSpacesAux] at hc
  | cons x rest ih =>
    intro c hc
    simp only [collapseSpacesAux] at hc
    split at hc
    · split at hc
      · rcases ih true c hc with h | ⟨h1, h2⟩
        · exact Or.inl h
        · exact Or.inr ⟨List.mem_cons_of_mem x h1, h2⟩
      · rcases List.mem_cons.1 hc with rfl | hc2
        · exact Or.inl rfl
        · rcases ih true c hc2 with h | ⟨h1, h2⟩
          · exact Or.inl h
          · exact Or.inr ⟨List.mem_cons_of_mem x h1, h2⟩
    · rename_i hx
      rcases List.mem_cons.1 hc with rfl | hc2
      · exact Or.inr ⟨List.mem_cons_self c rest, by simpa using hx⟩
      · rcases ih false c hc2 with h | ⟨h1, h2⟩
        · exact Or.inl h
        · exact Or.inr ⟨List.mem_cons_of_mem x h1, h2⟩

theorem collapseUnderscoresAux_chars (b : Bool) (l : List Char) :
    ∀ c ∈ collapseUnderscoresAux b l, c = '_' ∨ c ∈ l := by
  induction l generalizing b with
  | nil => intro c hc; simp [collapseUnderscoresAux] at hc
  | cons x rest ih =>
    intro c hc
    simp only [collapseUnderscoresAux] at hc
    split at hc
    · split at hc
      · rcases ih true c hc with h | h
        · exact Or.inl h
        · exact Or.inr (List.mem_cons_of_mem x h)
      · rcases List.mem_cons.1 hc with rfl | hc2
        · exact Or.inl rfl
        · rcases ih true c hc2 with h | h
          · exact Or.inl h
          · exact Or.inr (List.mem_cons_of_mem x h)
    · rcases List.mem_cons.1 hc with rfl | hc2
      · exact Or.inr (List.mem_cons_self c rest)
      · rcases ih false c hc2 with h | h
        · exact Or.inl h
        · exact Or.inr (List.mem_cons_of_mem x h)

theorem clean_pipeline_chars (l0 : List Char) :
    ∀ c ∈ collapseUnderscores (collapseSpaces
        ((((l0.filter isKeptChar).dropWhile isSpaceChar).reverse.dropWhile
            isSpaceChar).reverse)),
      c.isAlphanum = true ∨ c = '_' ∨ c = '-' ∨ c = '.' := by
  intro c hc
  rcases collapseUnderscoresAux_chars false _ c hc with h | hc2
  · exact Or.inr (Or.inl h)
  · rcases collapseSpacesAux_chars false _ c hc2 with h | ⟨h1, h2⟩
    · exact Or.inr (Or.inl h)
    · rw [List.mem_reverse] at h1
      have h3 : c ∈ ((l0.filter isKeptChar).dropWhile isSpaceChar).reverse :=
        (List.dropWhile_sublist isSpaceChar).subset h1
      rw [List.mem_reverse] at h3
      have h4 : c ∈ l0.filter isKeptChar :=
        (List.dropWhile_sublist isSpaceChar).subset h3
      have h5 := (List.mem_filter.1 h4).2
      simp only [isKeptChar, Bool.or_eq_true, decide_eq_true_eq] at h5
      rcases h5 with (((ha | hu) | hm) | hd) | hsp
      · exact Or.inl ha
      · exact Or.inr (Or.inl hu)
      · exact Or.inr (Or.inr (Or.inl hm))
      · exact Or.inr (Or.inr (Or.inr hd))
      · rw [hsp] at h2
        simp [isSpaceChar] at h2

theorem clean_filename_eq (s : String) (hs : s ≠ "") :
    clean_filename s =
      if clean_truncated s 50 = [] then "unnamed" else ⟨clean_truncated s 50⟩ := by
  rw [clean_filename, if_neg hs]
  rfl

theorem clean_truncated_length (s : String) : (clean_truncated s 50).length ≤ 50 := by
  unfold clean_truncated
  split
  · rename_i h
    calc ((((clean_collapsed s).take 50).reverse.dropWhile
            (fun d => d = '_')).reverse).length
        = (((clean_collapsed s).take 50).reverse.dropWhile (fun d => d = '_')).length :=
          List.length_reverse _
      _ ≤ ((clean_collapsed s).take 50).reverse.length :=
          (List.dropWhile_sublist _).length_le
      _ = ((clean_collapsed s).take 50).length := List.length_reverse _
      _ ≤ 50 := by rw [List.length_take]; omega
  · omega

theorem clean_truncated_subset (s : String) :
    clean_truncated s 50 ⊆ clean_collapsed s := by
  unfold clean_truncated
  split
  · intro c hc
    rw [List.mem_reverse] at hc
    have h1 : c ∈ ((clean_collapsed s).take 50).reverse :=
      (List.dropWhile_sublist _).subset hc
    rw [List.mem_reverse] at h1
    exact List.take_subset _ _ h1
  · exact fun c hc => hc

/-- C8 (amended): the generated slug of the query text keeps its case (it is
not lowercased); it is stripped of characters outside `[A-Za-z0-9_.\- ]`
(the code keeps any regex word character — the model covers the ASCII
fragment the claims exercise), spaces are collapsed to underscores, the
result is truncated to the bounded length 50, and the fallback is
`"unnamed"` when the slug would be empty. -/
theorem C8_slug_properties (s : String) :
    (clean_filename s).length ≤ 50 ∧
    clean_filename s ≠ "" ∧
    (∀ c ∈ (clean_filename s).data, c.isAlphanum = true ∨ c = '_' ∨ c = '-' ∨ c = '.') ∧
    clean_filename "" = "unnamed" ∧
    clean_filename "a b  c" = "a_b_c" ∧
    clean_filename "ABC" = "ABC" := by
  by_cases hf : s = ""
  · subst hf
    exact ⟨by decide, by decide, by decide, by decide, by decide, by decide⟩
  · rw [clean_filename_eq s hf]
    refine ⟨?_, ?_, ?_, by decide, by decide, by decide⟩
    · split
      · decide
      · show (clean_truncated s 50).length ≤ 50
        exact clean_truncated_length s
    · split
      · decide
      · rename_i hne
        intro h
        exact hne (congrArg String.data h)
    · split
      · decide
      · intro c hc
        exact clean_pipeline_chars _ c (clean_truncated_subset s hc)

/-- Truncation at the length bound, checked at a concrete input: sixty
copies of `x` are cut to fifty. -/
theorem clean_filename_truncates :
    clean_filename ⟨List.replicate 60 'x'⟩ = ⟨List.replicate 50 'x'⟩ := by decide

/-- C9 counterexample: `to_dict` — the only record-to-document normalization
step the formatter has — is not idempotent and does not fix already
normalized data.  `sample_norm_py` is a fully normalized record (every field
present and well-typed, score clamped), yet `to_dict` maps it to a document
different from it; and re-applying `to_dict` to its own output — a record
that is already in the normalized output form — changes it again (the
re-keyed document has no `query` key, so the second pass reads defaults). -/
theorem C9_to_dict_not_idempotent :
    to_dict sample_norm_py ≠ some sample_norm_py ∧
    to_dict structured_doc_x ≠ some structured_doc_x := by
  constructor
  · intro h
    exact absurd (congrArg (fun o => (o.getD PyVal.none).hasKeyB "query") h) (by decide)
  · intro h
    exact absurd
      (congrArg
        (fun o => (((o.getD PyVal.none).get "搜索信息" PyVal.none).get "查询"
          PyVal.none).isNoneB) h)
      (by decide)

theorem clamp_idem (x : ℚ) : max 0 (min 1 (max 0 (min 1 x))) = max 0 (min 1 x) := by
  have h2 : max 0 (min 1 x) ≤ 1 := max_le (by norm_num) (min_le_left _ _)
  rw [min_eq_right h2, max_eq_right (le_max_left _ _)]

/-- C9 (amended): the scalar sanitization the code actually performs — the
score coercion of `analyze_quality` — is idempotent: re-normalizing an
already-normalized score changes nothing, for every dynamic input value.
(`to_dict` itself is a re-keying projection, not an idempotent normalizer;
see the counterexample.) -/
theorem C9_score_normalization_idempotent (v : PyVal) :
    normalize_score (.num (normalize_score v)) = normalize_score v := by
  cases v with
  | num q =>
    show max 0 (min 1 (max 0 (min 1 q))) = max 0 (min 1 q)
    exact clamp_idem q
  | str s =>
    cases hp : parseFloat? s with
    | some q =>
      have hs : normalize_score (.str s) = max 0 (min 1 q) := by
        unfold normalize_score
        simp [pyFloat?, hp]
      rw [hs]
      exact clamp_idem q
    | none =>
      have hs : normalize_score (.str s) = 0 := by
        unfold normalize_score
        simp [pyFloat?, hp]
      rw [hs]
      decide
  | none => decide
  | list l =>
    show max 0 (min 1 (0 : ℚ)) = 0
    decide
  | dict d =>
    show max 0 (min 1 (0 : ℚ)) = 0
    decide

/-- C10: `get_search_history` returns a copy of the session ledger — after
obtaining the returned list, any in-place mutation `f` the caller performs
on it leaves the internal history list unchanged, so a subsequent
`get_search_history` and `export_history` still see the original entries.
The hypothesis states that the client holds a valid reference into the heap,
which holds for every reachable client state. -/
theorem get_search_history_read (t : LedgerState) :
    (get_search_history t).2.read (get_search_history t).1 = t.read t.hist_ref := by
  simp only [get_search_history, LedgerState.read, List.getD_eq_getElem?_getD]
  rw [List.getElem?_append_right (Nat.le_refl _)]
  simp

theorem C10_history_returns_copy (s : LedgerState)
    (f : List HistoryEntry → List HistoryEntry)
    (h : s.hist_ref < s.heap.length) :
    (get_search_history s).2.read (get_search_history s).1 = s.read s.hist_ref ∧
    (mutate_list (get_search_history s).2 (get_search_history s).1 f).read s.hist_ref
      = s.read s.hist_ref ∧
    (get_search_history
        (mutate_list (get_search_history s).2 (get_search_history s).1 f)).2.read
        (get_search_history
          (mutate_list (get_search_history s).2 (get_search_history s).1 f)).1
      = s.read s.hist_ref ∧
    export_history (mutate_list (get_search_history s).2 (get_search_history s).1 f)
      = export_history s := by
  have hmut : (mutate_list (get_search_history s).2 (get_search_history s).1 f).read
      s.hist_ref = s.read s.hist_ref := by
    simp only [get_search_history, mutate_list, LedgerState.read,
      List.getD_eq_getElem?_getD]
    rw [List.getElem?_set_ne (Nat.ne_of_gt h), List.getElem?_append, if_pos h]
  refine ⟨get_search_history_read s, hmut, ?_, ?_⟩
  · rw [get_search_history_read]
    rw [show (mutate_list (get_search_history s).2 (get_search_history s).1 f).hist_ref
        = s.hist_ref from rfl]
    exact hmut
  · unfold export_history
    rw [show (mutate_list (get_search_history s).2 (get_search_history s).1 f).hist_ref
        = s.hist_ref from rfl]
    rw [hmut]

/-- Witness for C10 at a concrete ledger state: one stored entry, the
caller clearing the returned copy. -/
theorem C10_history_returns_copy_witness :
    sample_ledger.hist_ref < sample_ledger.heap.length ∧
    (mutate_list (get_search_history sample_ledger).2
        (get_search_history sample_ledger).1 (fun _ => [])).read sample_ledger.hist_ref
      = sample_ledger.read sample_ledger.hist_ref :=
  ⟨by decide,
    (C10_history_returns_copy sample_ledger (fun _ => []) (by decide)).2.1⟩

theorem enumFrom_map_result_dict (n : ℕ) (l : List NormalizedResult) :
    ((l.map (fun res => PyVal.dict
        [ ("title", .str res.title), ("url", .str res.url)
        , ("content", .str res.content), ("score", .num res.score) ])).enumFrom n).map
      (fun p => PyVal.dict
        [ ("序号", .num (p.1 : ℚ))
        , ("标题", p.2.get "title" .none)
        , ("链接", p.2.get "url" .none)
        , ("评分", p.2.get "score" .none)
        , ("内容摘要", p.2.get "content" .none) ])
    = ((l.enumFrom n).map (fun p =>
        ({ rank := p.1, title := p.2.title, url := p.2.url
           score := p.2.score, content := p.2.content } : StructuredResult))).map
      (fun res => PyVal.dict
        [ ("序号", .num (res.rank : ℚ))
        , ("标题", .str res.title)
        , ("链接", .str res.url)
        , ("评分", .num res.score)
        , ("内容摘要", .str res.content) ]) := by
  induction l generalizing n with
  | nil => rfl
  | cons x xs ih =>
    simp only [List.map_cons, List.enumFrom_cons]
    rw [ih]
    exact rfl

/-- On a fully normalized record, the dynamic `to_dict` and the typed
`to_structured` agree: the two embeddings of `TavilyFormatter.to_dict`
produce the same structured document. -/
theorem to_dict_on_normalized (r : NormalizedRecord) :
    to_dict r.toPyVal = some (to_structured r).toPyVal := by
  unfold to_dict
  have ht : r.toPyVal.truthy = true := rfl
  rw [if_neg (not_not_intro ht)]
  refine congrArg some (congrArg PyVal.dict ?_)
  have hres : r.toPyVal.resultsOf = r.results.map (fun res => PyVal.dict
      [ ("title", .str res.title), ("url", .str res.url)
      , ("content", .str res.content), ("score", .num res.score) ]) := rfl
  rw [hres, List.length_map, enumFrom_map_result_dict]
  rfl

example : normalize_score (.num (-5)) = 0 := by decide
example : normalize_score (.str "abc") = 0 := by decide
example : normalize_score .none = 0 := by decide
example : normalize_score (.num (mkRat 3 2)) = 1 := by decide
example : normalize_score (.num (mkRat 13 20)) = mkRat 13 20 := by decide
example : parseFloat? "" = Option.none := by decide
example : parseFloat? "1.5x" = Option.none := by decide
example : parseFloat? "1.5" = some (mkRat 3 2) := by
  rw [show parseFloat? "1.5" = some ((1 : ℚ) * (1 + mkRat 5 10)) from rfl]
  norm_num [Rat.mkRat_eq_div]
example : clean_filename "" = "unnamed" := by decide
example : clean_filename "ABC" = "ABC" := by decide
example : clean_filename "a b" = "a_b" := by decide
example : clean_filename "a?b" = "a_b" := by decide
example : clean_filename "a<>b" = "a_b" := by decide
example : clean_filename "??" = "_" := by decide
example : clean_filename "\t\t" = "unnamed" := by decide
example : clean_filename "a  b" = "a_b" := by decide
example : clean_filename "..." = "..." := by decide
example : clean_filename "  hi  " = "hi" := by decide
example : path_name "../../etc/passwd" = "passwd" := by decide
example : path_name ".." = ".." := by decide
example : path_name "a/." = "a" := by decide
example : path_name "." = "" := by decide
example : path_name "" = "" := by decide
example : path_name "/etc/passwd" = "passwd" := by decide
example : path_name "a/b/" = "b" := by decide
example : to_dict (.dict []) = Option.none := rfl
example : fixed3 (mkRat 1 2) = "0.500" := by decide
example : fixed3 (mkRat 13 20) = "0.650" := by decide
example : fixed3 0 = "0.000" := by decide
example : fixed3 (-(mkRat 1 2)) = "-0.500" := by decide
example : pyFloatRepr (mkRat 6 5) = "1.2" := by decide
example : pyFloatRepr 1 = "1.0" := by decide
example : html_escape "<script>a&\x27\"" = "&lt;script&gt;a&amp;&#x27;&quot;" := by decide
example : natDigits 120 = ['1', '2', '0'] := by decide
